import Mathlib

/-!
Verification development for the client-side screen-recording composable
(`useMediaRecorder.ts`): webcam-overlay layout easing, the compositing
animation-frame loop, the webcam controller, media-stream assembly in
`startRecording`, MIME-type selection, canvas resolution capping, and the
stop/finalize/cleanup machinery of `stopRecording`.

Modelling conventions:
* JavaScript numbers are modelled exactly as rationals (`ℚ`); integer-valued
  quantities (chunk sizes, track counts, capture dimensions) as `ℕ`/`ℤ`.
* Blobs are modelled by the list of their chunk sizes; `Blob.size` is the sum.
* Browser primitives (`requestAnimationFrame`, `cancelAnimationFrame`, the
  recorder events, media acquisition) are modelled as explicit state
  transitions / environment parameters; the acquisition environment records
  whether each `getUserMedia` / `getDisplayMedia` call is granted or denied.
* `console.warn` output is modelled as a list of log lines where a claim
  depends on it.
-/

/-- Normalized webcam-overlay layout: center position `x,y` in `[0,1]` and
radius `size`, as held in `currentLayout` / `targetLayout`. -/
structure Layout where
  x : ℚ
  y : ℚ
  size : ℚ
deriving DecidableEq

/-- Easing factor for smooth transition (source constant `LERP_FACTOR = 0.15`). -/
def LERP_FACTOR : ℚ := 15 / 100

/-- Default layout on construction: bottom-left `{x: 0.1, y: 0.9, size: 0.09}`. -/
def defaultLayout : Layout := { x := 1 / 10, y := 9 / 10, size := 9 / 100 }

/-- The three interpolation assignments executed once per drawn frame inside
`compositeFrame` (`currentLayout.a += (targetLayout.a - currentLayout.a) * LERP_FACTOR`
for each axis `a`). -/
def stepLayout (target current : Layout) : Layout :=
  { x := current.x + (target.x - current.x) * LERP_FACTOR
    y := current.y + (target.y - current.y) * LERP_FACTOR
    size := current.size + (target.size - current.size) * LERP_FACTOR }

/-- `current` after `n` easing steps toward a fixed `target`. -/
def stepN (target current : Layout) (n : ℕ) : Layout :=
  (stepLayout target)^[n] current

/-- The compositing frame interval in milliseconds (`FRAME_INTERVAL = 1000 / TARGET_FPS`
with `TARGET_FPS = 30`). -/
def FRAME_INTERVAL : ℚ := 1000 / 30

/-- State of the compositing loop together with the browser's animation-frame
callback queue.  All scheduled callbacks are invocations of `compositeFrame`,
so the queue is modelled by the list of outstanding request ids (in
registration order) plus a fresh-id counter. -/
structure CompositorState where
  pending : List ℕ
  nextId : ℕ
  animationFrameId : Option ℕ
  lastFrameTime : ℚ
  drawnFrames : ℕ
  currentLayout : Layout
  targetLayout : Layout
deriving DecidableEq

/-- Compositor state at `startCompositingLoop` entry: no callback scheduled,
`animationFrameId = null`, `lastFrameTime = 0`, default layout. -/
def initCompositor : CompositorState :=
  { pending := []
    nextId := 0
    animationFrameId := none
    lastFrameTime := 0
    drawnFrames := 0
    currentLayout := defaultLayout
    targetLayout := defaultLayout }

/-- `requestAnimationFrame(compositeFrame)`: schedules one more invocation of
the callback and returns the fresh request id. -/
def requestAnimationFrame (s : CompositorState) : CompositorState × ℕ :=
  ({ s with pending := s.pending ++ [s.nextId], nextId := s.nextId + 1 }, s.nextId)

/-- One invocation of `compositeFrame(timestamp)`.  Faithful to the source:
it re-registers itself (storing the id in `animationFrameId`) at the top,
returns early when throttled, and otherwise draws the background
(counted in `drawnFrames`), advances the layout easing, and registers itself
once more at the bottom. -/
def compositeFrameInvoke (timestamp : ℚ) (s : CompositorState) : CompositorState :=
  let r1 := requestAnimationFrame s
  let s1 := { r1.1 with animationFrameId := some r1.2 }
  if timestamp - s1.lastFrameTime < FRAME_INTERVAL then
    s1
  else
    let s2 := { s1 with
      lastFrameTime := timestamp
      drawnFrames := s1.drawnFrames + 1
      currentLayout := stepLayout s1.targetLayout s1.currentLayout }
    let r2 := requestAnimationFrame s2
    { r2.1 with animationFrameId := some r2.2 }

/-- The browser fires one display repaint at `timestamp`: every callback that
was pending at the start of the repaint is invoked once, in registration
order; callbacks registered during the repaint run at the next one. -/
def displayFrame (timestamp : ℚ) (s : CompositorState) : CompositorState :=
  s.pending.foldl (fun acc _ => compositeFrameInvoke timestamp acc) { s with pending := [] }

/-- `cancelAnimationFrame(id)`: unschedules the request with that id. -/
def cancelAnimationFrame (id : ℕ) (s : CompositorState) : CompositorState :=
  { s with pending := s.pending.filter (fun i => i ≠ id) }

/-- The compositor-cancellation portion of `cleanup()`:
`if (animationFrameId !== null) { cancelAnimationFrame(animationFrameId); animationFrameId = null }`. -/
def cancelCompositor (s : CompositorState) : CompositorState :=
  match s.animationFrameId with
  | some id => { cancelAnimationFrame id s with animationFrameId := none }
  | none => s

/-- `startCompositingLoop` tail: `requestAnimationFrame(compositeFrame)` with
the returned id discarded (not stored in `animationFrameId`). -/
def startCompositingLoop (s : CompositorState) : CompositorState :=
  (requestAnimationFrame s).1

/-- `setWebcamLayout(layout)`: assigns the three fields of the argument to
`targetLayout`; `currentLayout` is not touched. -/
def setWebcamLayout (layout : Layout) (s : CompositorState) : CompositorState :=
  { s with targetLayout := { x := layout.x, y := layout.y, size := layout.size } }

/-- The hidden webcam `<video>` element as far as the per-frame overlay guard
reads it (`readyState`, `videoWidth`, `videoHeight`). -/
structure CamVideo where
  readyState : ℕ
  videoWidth : ℕ
  videoHeight : ℕ
deriving DecidableEq

/-- What one composited frame painted. -/
structure FrameDraw where
  background : Bool
  overlay : Bool
deriving DecidableEq

/-- The drawing part of one non-throttled `compositeFrame` iteration: the
background is always drawn; the webcam bubble is drawn only under the guard
`camVideo && camVideo.readyState >= 2 && webcamStream.value`. -/
def drawFrame (camVideo : Option CamVideo) (webcamStream : Option Unit) : FrameDraw :=
  { background := true
    overlay :=
      match camVideo with
      | none => false
      | some v => decide (2 ≤ v.readyState) && webcamStream.isSome }

/-- The composable's webcam-related refs (`webcamEnabled`, `webcamStream`)
together with `isRecording`. -/
structure CamState where
  webcamEnabled : Bool
  webcamStream : Option Unit
  isRecording : Bool
deriving DecidableEq

/-- `initWebcam()`: on a granted `getUserMedia` the stream is stored in
`webcamStream`; on denial the error is logged with `console.warn` and
`webcamEnabled` is set to `false`. -/
def initWebcam (acq : Except String Unit) (s : CamState) : CamState × List String :=
  match acq with
  | .ok _ => ({ s with webcamStream := some () }, [])
  | .error e => ({ s with webcamEnabled := false }, ["Could not access webcam: " ++ e])

/-- `stopWebcam()`: if a webcam stream is held, stop its tracks and clear the
reference; otherwise a no-op. -/
def stopWebcam (s : CamState) : CamState :=
  if s.webcamStream.isSome then { s with webcamStream := none } else s

/-- `toggleWebcam()`: branches solely on whether `webcamStream` is held —
disable (stop + `webcamEnabled = false`) when held, else set
`webcamEnabled = true` and attempt `initWebcam`. -/
def toggleWebcam (acq : Except String Unit) (s : CamState) : CamState × List String :=
  if s.webcamStream.isSome then
    ({ stopWebcam s with webcamEnabled := false }, [])
  else
    initWebcam acq { s with webcamEnabled := true }

/-- The fixed mime-type priority list of `getSupportedMimeType`. -/
def mimeTypeCandidates : List String :=
  ["video/webm;codecs=vp8,opus", "video/webm;codecs=vp9,opus", "video/webm", "video/mp4"]

/-- The `for`-loop body of `getSupportedMimeType`: return the first entry of
the list that `MediaRecorder.isTypeSupported` accepts. -/
def firstSupported (isTypeSupported : String → Bool) : List String → Option String
  | [] => none
  | t :: rest => if isTypeSupported t then some t else firstSupported isTypeSupported rest

/-- `getSupportedMimeType()`, with the platform's
`MediaRecorder.isTypeSupported` passed in as the environment. -/
def getSupportedMimeType (isTypeSupported : String → Bool) : Option String :=
  firstSupported isTypeSupported mimeTypeCandidates

/-- The mime-type check in `startRecording`: `if (!mimeType) throw new
Error('No supported video MIME type found')`. -/
def selectMimeType (isTypeSupported : String → Bool) : Except String String :=
  match getSupportedMimeType isTypeSupported with
  | none => .error "No supported video MIME type found"
  | some m => .ok m

/-- `MAX_WIDTH` of the compositing canvas. -/
def MAX_WIDTH : ℕ := 1920

/-- `MAX_HEIGHT` of the compositing canvas. -/
def MAX_HEIGHT : ℕ := 1080

/-- JavaScript `Math.round` on the (non-negative) values arising here:
round half up. -/
def jsRound (q : ℚ) : ℤ := ⌊q + 1 / 2⌋

/-- The canvas sizing logic of `startRecording` applied to the capture
settings after the `|| 1920` / `|| 1080` defaulting (so `rawWidth` and
`rawHeight` are the effective source dimensions): downscale by
`ratio = min(MAX_WIDTH / width, MAX_HEIGHT / height)` when either dimension
exceeds the cap, else keep the source dimensions. -/
def canvasDims (rawWidth rawHeight : ℕ) : ℤ × ℤ :=
  if MAX_WIDTH < rawWidth ∨ MAX_HEIGHT < rawHeight then
    let ratio : ℚ := min ((MAX_WIDTH : ℚ) / rawWidth) ((MAX_HEIGHT : ℚ) / rawHeight)
    (jsRound (rawWidth * ratio), jsRound (rawHeight * ratio))
  else
    ((rawWidth : ℤ), (rawHeight : ℤ))

/-- The display stream returned by `getDisplayMedia`, reduced to its track
counts. -/
structure DisplayStream where
  videoTracks : ℕ
  audioTracks : ℕ
deriving DecidableEq

/-- Platform responses consumed by one `startRecording` run: the outcome of
each acquisition call and the codec-support oracle. -/
structure Env where
  display : Except String DisplayStream
  mic : Except String Unit
  webcamAcq : Except String Unit
  isTypeSupported : String → Bool

/-- Which video track `startRecording` hands to the recorder. -/
inductive VideoTrackSel
  | rawDisplay
  | canvasDerived
deriving DecidableEq

/-- Observable result of a successful `startRecording`: the single video
track added to the final `MediaStream`, the number of audio tracks added
(the mixed destination stream carries exactly one track when the mixer was
built), whether the compositor loop was started, the selected mime type, and
the recorder having been started. -/
structure StartResult where
  videoTrack : VideoTrackSel
  audioTrackCount : ℕ
  compositorStarted : Bool
  mimeType : String
  recording : Bool
deriving DecidableEq

/-- The microphone acquisition step of `startRecording`: the `try/catch`
around `getUserMedia({audio: true})` — failure yields a null `micStream`
and a `console.warn` line, nothing more. -/
def micAcquire (env : Env) : Option Unit × List String :=
  match env.mic with
  | .ok _ => (some (), [])
  | .error e => (none, ["Could not access microphone: " ++ e])

/-- The webcam initialization step of `startRecording`:
`if (webcamEnabled.value && !webcamStream.value) await initWebcam()`. -/
def webcamInitStep (env : Env) (s : CamState) : CamState × List String :=
  if s.webcamEnabled = true ∧ s.webcamStream = none then
    initWebcam env.webcamAcq s
  else
    (s, [])

/-- Number of audio tracks added to the final stream: the Web Audio mixer is
built exactly when system audio or microphone audio exists, and its
destination stream carries one combined track. -/
def mixedAudioTracks (disp : DisplayStream) (mic : Option Unit) : ℕ :=
  if decide (0 < disp.audioTracks) || mic.isSome then 1 else 0

/-- `startRecording()` as a function of the platform environment and the
webcam controller state.  Returns the outcome (the thrown error message on
the fatal paths), the updated webcam state, and the `console.warn` log.
Faithful to the source ordering: display acquisition (fatal on failure), mic
acquisition (non-fatal, logged), webcam init when enabled and not yet held
(non-fatal, logged), audio-mixer construction when any audio source exists,
the display-video-track presence check, the compositor-vs-raw video-track
decision, and the mime-type check.  `new MediaRecorder` and
`canvas.captureStream` are taken as succeeding platform primitives. -/
def startRecording (env : Env) (s : CamState) :
    Except String StartResult × CamState × List String :=
  match env.display with
  | .error e => (.error e, s, [])
  | .ok disp =>
    let mic := micAcquire env
    let s1 := webcamInitStep env s
    let log := mic.2 ++ s1.2
    if disp.videoTracks = 0 then
      (.error "No video track available from screen capture", s1.1, log)
    else
      match getSupportedMimeType env.isTypeSupported with
      | none => (.error "No supported video MIME type found", s1.1, log)
      | some m =>
        (.ok { videoTrack := if s1.1.webcamStream.isSome then .canvasDerived else .rawDisplay
               audioTrackCount := mixedAudioTracks disp mic.1
               compositorStarted := s1.1.webcamStream.isSome
               mimeType := m
               recording := true },
         s1.1, log)

/-- A sample platform environment: display capture granted with one video
and no audio track, microphone and webcam both denied, every codec
supported. -/
def sampleEnv : Env :=
  { display := .ok { videoTracks := 1, audioTracks := 0 }
    mic := .error "denied"
    webcamAcq := .error "absent"
    isTypeSupported := fun _ => true }

/-- A sample webcam-controller state: webcam enabled but no stream held. -/
def sampleCam : CamState :=
  { webcamEnabled := true, webcamStream := none, isRecording := false }

/-- The `StartResult` produced by `startRecording sampleEnv sampleCam`. -/
def sampleResult : StartResult :=
  { videoTrack := .rawDisplay
    audioTrackCount := 0
    compositorStarted := false
    mimeType := "video/webm;codecs=vp8,opus"
    recording := true }

/-- The webcam-controller state after `startRecording sampleEnv sampleCam`. -/
def sampleCamPost : CamState :=
  { webcamEnabled := false, webcamStream := none, isRecording := false }

/-- The warn log produced by `startRecording sampleEnv sampleCam`. -/
def sampleLog : List String :=
  ["Could not access microphone: denied", "Could not access webcam: absent"]

/-- How the promise returned by `stopRecording` settled. -/
inductive StopOutcome
  | resolved (size : ℕ) (mimeType : String)
  | rejected (msg : String)
deriving DecidableEq

/-- Result of one `stopRecording()` call: an immediate rejection, or a
pending promise to be settled by the recorder events. -/
inductive StopCallResult
  | rejectedImmediately (msg : String)
  | pending
deriving DecidableEq

/-- The composable state relevant to the stop/finalize/cleanup machinery.
`chunks` holds the sizes of the accumulated encoded chunks; `previewUrl`
models `URL.createObjectURL` of the sealed blob by that blob's size;
`hasPending` models `stopResolve`/`stopReject` being stored;
`recorderInactive` models `mediaRecorder.state === 'inactive'`;
`cleanupCount` counts invocations of `cleanup()`; `settled` records the
outcome of the pending stop promise together with the value of
`cleanupCount` at the moment `resolve`/`reject` was called. -/
structure StopState where
  chunks : List ℕ
  previewUrl : Option ℕ
  isRecording : Bool
  timerRunning : Bool
  hasPending : Bool
  recorderExists : Bool
  recorderInactive : Bool
  cleanupCount : ℕ
  settled : Option (StopOutcome × ℕ)
deriving DecidableEq

/-- `cleanup()` at this machine's granularity: it stops the timer (its
compositor-, stream- and webcam-teardown effects are modelled by
`cancelCompositor` and `stopWebcam` on their own state) and is counted. -/
def cleanup (s : StopState) : StopState :=
  { s with cleanupCount := s.cleanupCount + 1, timerRunning := false }

/-- The `stopResolve` wrapper installed by `stopRecording`:
`(blob) => { cleanup(); resolve(blob) }`. -/
def settleResolve (size : ℕ) (mime : String) (s : StopState) : StopState :=
  let s1 := cleanup s
  { s1 with settled := some (.resolved size mime, s1.cleanupCount) }

/-- The `stopReject` wrapper installed by `stopRecording`:
`(err) => { cleanup(); reject(err) }`. -/
def settleReject (msg : String) (s : StopState) : StopState :=
  let s1 := cleanup s
  { s1 with settled := some (.rejected msg, s1.cleanupCount) }

/-- One `stopRecording()` call: reject immediately when no recorder exists or
it is already inactive; otherwise store the resolver wrappers, call
`mediaRecorder.stop()` (which transitions the recorder to `'inactive'` and
will fire `onstop`), and schedule the 3-second safety timeout
(`stopTimeoutEvent`). -/
def stopRecordingCall (s : StopState) : StopState × StopCallResult :=
  if s.recorderExists = false then
    (s, .rejectedImmediately "No active recording")
  else if s.recorderInactive = true then
    (s, .rejectedImmediately "Recording already stopped")
  else
    ({ s with hasPending := true, recorderInactive := true }, .pending)

/-- The `ondataavailable` handler: append the chunk only when its size is
positive. -/
def ondataEvent (size : ℕ) (s : StopState) : StopState :=
  if 0 < size then { s with chunks := s.chunks ++ [size] } else s

/-- The `mediaRecorder.onstop` handler with the session's selected mime type:
seal `new Blob(chunks, {type: mimeType})`, set `previewUrl`
unconditionally, clear `isRecording`, stop the timer, and — when a stop is
pending — run the `stopResolve` wrapper with the blob and clear the
resolvers. -/
def onstopEvent (mimeType : String) (s : StopState) : StopState :=
  let size := s.chunks.sum
  let s1 := { s with previewUrl := some size, isRecording := false, timerRunning := false }
  if s1.hasPending = true then
    { settleResolve size mimeType s1 with hasPending := false }
  else
    s1

/-- `finishStop()` inside `stopRecording`: seal the blob with
`getSupportedMimeType() || 'video/webm'`; when non-empty set `previewUrl`,
clear `isRecording`, stop the timer and run the `stopResolve` wrapper, else
run the `stopReject` wrapper with `'No data recorded'`; then clear the
resolvers and call `cleanup()` once more. -/
def finishStop (isTypeSupported : String → Bool) (s : StopState) : StopState :=
  let mime := (getSupportedMimeType isTypeSupported).getD "video/webm"
  let size := s.chunks.sum
  let s1 :=
    if 0 < size then
      settleResolve size mime
        { s with previewUrl := some size, isRecording := false, timerRunning := false }
    else
      settleReject "No data recorded" s
  cleanup { s1 with hasPending := false }

/-- The 3-second safety timeout scheduled by `stopRecording`: a no-op when
the resolvers were already cleared; otherwise run `finishStop` (when the
recorder is still `'recording'` the code first calls `requestData()` and
delays `finishStop` by 500ms — the flushed chunks are delivered through
`ondataEvent` before that). -/
def stopTimeoutEvent (isTypeSupported : String → Bool) (s : StopState) : StopState :=
  if s.hasPending = true then finishStop isTypeSupported s else s

/-- The `mediaRecorder.onerror` handler: when a stop is pending, run the
`stopReject` wrapper with `'Recording error occurred'` and clear the
resolvers; then call `cleanup()`. -/
def onerrorEvent (s : StopState) : StopState :=
  let s1 :=
    if s.hasPending = true then
      { settleReject "Recording error occurred" s with hasPending := false }
    else
      s
  cleanup s1

/-- The stop-machine state of a live recording session that has accumulated
the given chunks. -/
def recordingState (chunks : List ℕ) : StopState :=
  { chunks := chunks
    previewUrl := none
    isRecording := true
    timerRunning := true
    hasPending := false
    recorderExists := true
    recorderInactive := false
    cleanupCount := 0
    settled := none }

/-- The stop-machine state before any recording was started
(`mediaRecorder === null`). -/
def idleState : StopState :=
  { chunks := []
    previewUrl := none
    isRecording := false
    timerRunning := false
    hasPending := false
    recorderExists := false
    recorderInactive := false
    cleanupCount := 0
    settled := none }

/-- Exact per-axis gap after `n` easing steps toward a fixed target: the
distance to the target is multiplied by `1 - LERP_FACTOR = 17/20` each step. -/
theorem stepN_gap (t c : Layout) (n : ℕ) :
    (stepN t c n).x - t.x = (c.x - t.x) * (17 / 20) ^ n ∧
    (stepN t c n).y - t.y = (c.y - t.y) * (17 / 20) ^ n ∧
    (stepN t c n).size - t.size = (c.size - t.size) * (17 / 20) ^ n := by
  induction n with
  | zero => simp [stepN]
  | succ n ih =>
    obtain ⟨hx, hy, hs⟩ := ih
    have hstep : stepN t c (n + 1) = stepLayout t (stepN t c n) :=
      Function.iterate_succ_apply' _ _ _
    rw [hstep]
    refine ⟨?_, ?_, ?_⟩
    · simp only [stepLayout, LERP_FACTOR]
      linear_combination (17 / 20 : ℚ) * hx
    · simp only [stepLayout, LERP_FACTOR]
      linear_combination (17 / 20 : ℚ) * hy
    · simp only [stepLayout, LERP_FACTOR]
      linear_combination (17 / 20 : ℚ) * hs

/-- `|g| * (17/20)^N ≤ |g| / 100` once `N ≥ 29`. -/
theorem gap_abs_le (g : ℚ) (N : ℕ) (hN : 29 ≤ N) : |g * (17 / 20) ^ N| ≤ |g| / 100 := by
  rw [abs_mul, abs_pow]
  have h1 : |(17 / 20 : ℚ)| = 17 / 20 := by
    rw [abs_of_nonneg] ; norm_num
  rw [h1]
  have h2 : (17 / 20 : ℚ) ^ N ≤ (17 / 20 : ℚ) ^ 29 :=
    pow_le_pow_of_le_one (by norm_num) (by norm_num) hN
  have h3 : ((17 : ℚ) / 20) ^ 29 ≤ 1 / 100 := by norm_num
  calc |g| * (17 / 20 : ℚ) ^ N
      ≤ |g| * (1 / 100) :=
        mul_le_mul_of_nonneg_left (le_trans h2 h3) (abs_nonneg g)
    _ = |g| / 100 := by ring

/-- The per-axis absolute gap is non-increasing from one step to the next. -/
theorem gap_abs_mono (g : ℚ) (n : ℕ) :
    |g * (17 / 20) ^ (n + 1)| ≤ |g * (17 / 20) ^ n| := by
  rw [abs_mul, abs_mul, abs_pow, abs_pow]
  have h1 : |(17 / 20 : ℚ)| = 17 / 20 := by
    rw [abs_of_nonneg] ; norm_num
  rw [h1]
  refine mul_le_mul_of_nonneg_left ?_ (abs_nonneg g)
  exact pow_le_pow_of_le_one (by norm_num) (by norm_num) (Nat.le_succ n)

/-- C2 (counterexample): starting from the construction-default layout with
the target set once to `{x: 1, y: 0.9, size: 0.09}`, after exactly 20
`step()` calls `current.x` is still more than `1/100` away from `target.x`
(the remaining gap is `(9/10)·(17/20)^20 ≈ 0.035`), so twenty steps do not
bring `current` within 1% of the target. -/
theorem C2_counterexample :
    ¬ (|(stepN { x := 1, y := 9 / 10, size := 9 / 100 } defaultLayout 20).x - 1| ≤ 1 / 100) := by
  have h := (stepN_gap { x := 1, y := 9 / 10, size := 9 / 100 } defaultLayout 20).1
  have h2 : (stepN { x := 1, y := 9 / 10, size := 9 / 100 } defaultLayout 20).x - 1 =
      (1 / 10 - 1) * ((17 : ℚ) / 20) ^ 20 := by
    simpa [defaultLayout] using h
  rw [h2, abs_of_nonpos (by norm_num)]
  norm_num

/-- C2 (amended): each `step()` advances `current` toward `target` by the
fixed factor 0.15 per axis (the gap formula below), the absolute gap is
monotonically non-increasing along each axis while the target is unchanged,
and after `N ≥ 29` steps `current` is within 1% of the initial gap of the
last target set, along each axis. -/
theorem C2_amended (t c : Layout) (N : ℕ) (hN : 29 ≤ N) :
    (∀ n : ℕ,
      (stepN t c n).x - t.x = (c.x - t.x) * (17 / 20) ^ n ∧
      (stepN t c n).y - t.y = (c.y - t.y) * (17 / 20) ^ n ∧
      (stepN t c n).size - t.size = (c.size - t.size) * (17 / 20) ^ n) ∧
    (∀ n : ℕ,
      |(stepN t c (n + 1)).x - t.x| ≤ |(stepN t c n).x - t.x| ∧
      |(stepN t c (n + 1)).y - t.y| ≤ |(stepN t c n).y - t.y| ∧
      |(stepN t c (n + 1)).size - t.size| ≤ |(stepN t c n).size - t.size|) ∧
    (|(stepN t c N).x - t.x| ≤ |c.x - t.x| / 100 ∧
     |(stepN t c N).y - t.y| ≤ |c.y - t.y| / 100 ∧
     |(stepN t c N).size - t.size| ≤ |c.size - t.size| / 100) := by
  refine ⟨fun n => stepN_gap t c n, fun n => ?_, ?_⟩
  · obtain ⟨hx, hy, hs⟩ := stepN_gap t c n
    obtain ⟨hx1, hy1, hs1⟩ := stepN_gap t c (n + 1)
    rw [hx, hy, hs, hx1, hy1, hs1]
    exact ⟨gap_abs_mono _ n, gap_abs_mono _ n, gap_abs_mono _ n⟩
  · obtain ⟨hx, hy, hs⟩ := stepN_gap t c N
    rw [hx, hy, hs]
    exact ⟨gap_abs_le _ N hN, gap_abs_le _ N hN, gap_abs_le _ N hN⟩

/-- C2 (witness): the amended bound instantiated at the default start, the
target `{x: 1, y: 0.9, size: 0.09}` and `N = 29`. -/
theorem C2_amended_witness :
    |(stepN { x := 1, y := 9 / 10, size := 9 / 100 } defaultLayout 29).x -
        ({ x := 1, y := 9 / 10, size := 9 / 100 } : Layout).x| ≤
      |defaultLayout.x - ({ x := 1, y := 9 / 10, size := 9 / 100 } : Layout).x| / 100 :=
  (C2_amended { x := 1, y := 9 / 10, size := 9 / 100 } defaultLayout 29 (Nat.le_refl 29)).2.2.1

/-- C9: `setWebcamLayout` stores its argument as the new interpolation
target and leaves the current layout unchanged — it never snaps `current`. -/
theorem C9_set_target (layout : Layout) (s : CompositorState) :
    (setWebcamLayout layout s).currentLayout = s.currentLayout ∧
    (setWebcamLayout layout s).targetLayout = layout :=
  ⟨rfl, rfl⟩

/-- C4: cancellation itself is idempotent and safe when the loop was never
started, but cleanup does not stop the drawing: because `compositeFrame`
registers itself twice per drawn frame while `animationFrameId` keeps only
the last request id, one drawn frame at t=100ms leaves a second pending
callback that `cancelCompositor` does not cancel, and at the next repaint
(t=200ms) a further frame is drawn and the loop re-schedules itself. -/
theorem C4_cancel_leaves_loop_running :
    (∀ s : CompositorState, cancelCompositor (cancelCompositor s) = cancelCompositor s) ∧
    cancelCompositor initCompositor = initCompositor ∧
    (cancelCompositor (displayFrame 100 (startCompositingLoop initCompositor))).drawnFrames = 1 ∧
    (cancelCompositor (displayFrame 100 (startCompositingLoop initCompositor))).animationFrameId
      = none ∧
    (cancelCompositor (displayFrame 100 (startCompositingLoop initCompositor))).pending = [1] ∧
    (displayFrame 200
      (cancelCompositor (displayFrame 100 (startCompositingLoop initCompositor)))).drawnFrames
      = 2 ∧
    (displayFrame 200
      (cancelCompositor (displayFrame 100 (startCompositingLoop initCompositor)))).pending
      = [3, 4] := by
  refine ⟨fun s => ?_, ?_, ?_, ?_, ?_, ?_, ?_⟩
  · cases h : s.animationFrameId with
    | none => simp [cancelCompositor, h]
    | some id => simp [cancelCompositor, cancelAnimationFrame, h]
  all_goals
    norm_num [cancelCompositor, displayFrame, startCompositingLoop, initCompositor,
      compositeFrameInvoke, requestAnimationFrame, cancelAnimationFrame, FRAME_INTERVAL,
      stepLayout, defaultLayout, LERP_FACTOR]

/-- C1 (counterexample): when the recorder's natural-stop fires with zero
accumulated chunks while a stop is pending, `stop()` does not reject —
`onstop` seals the empty blob, resolves the pending promise with it
(size 0), and sets `previewUrl` to the empty blob's object URL. -/
theorem C1_counterexample :
    (onstopEvent "video/webm" (stopRecordingCall (recordingState [])).1).settled =
      some (.resolved 0 "video/webm", 1) ∧
    (onstopEvent "video/webm" (stopRecordingCall (recordingState [])).1).previewUrl = some 0 := by
  constructor <;> decide

/-- C1 (amended): the natural-stop handler resolves `stop()` with the sealed
artifact unconditionally — even when it is empty — and always sets
`previewUrl`; the "No data recorded" rejection (with `previewUrl` left
unchanged) happens only in the timeout-fallback finalization `finishStop`
when the sealed artifact is empty, and on that path too a non-empty sealed
artifact is resolved (with `previewUrl` set). -/
theorem C1_amended (mime : String) (sup : String → Bool) (s : StopState)
    (hp : s.hasPending = true) :
    ((onstopEvent mime s).settled = some (.resolved s.chunks.sum mime, s.cleanupCount + 1) ∧
     (onstopEvent mime s).previewUrl = some s.chunks.sum) ∧
    (s.chunks.sum = 0 →
      (finishStop sup s).settled = some (.rejected "No data recorded", s.cleanupCount + 1) ∧
      (finishStop sup s).previewUrl = s.previewUrl) ∧
    (0 < s.chunks.sum →
      (finishStop sup s).settled =
        some (.resolved s.chunks.sum ((getSupportedMimeType sup).getD "video/webm"),
          s.cleanupCount + 1) ∧
      (finishStop sup s).previewUrl = some s.chunks.sum) := by
  refine ⟨?_, fun h0 => ?_, fun hpos => ?_⟩
  · constructor <;> simp [onstopEvent, settleResolve, cleanup, hp]
  · constructor <;> simp [finishStop, settleReject, cleanup, h0]
  · constructor <;> simp [finishStop, settleResolve, cleanup, hpos, Nat.pos_iff_ne_zero.mp hpos]

/-- C1 (witness): the amended statement applied to a pending stop holding
two chunks of sizes 1000 and 2000. -/
theorem C1_amended_witness :
    (stopRecordingCall (recordingState [1000, 2000])).1.hasPending = true ∧
    (onstopEvent "video/webm" (stopRecordingCall (recordingState [1000, 2000])).1).settled =
      some (.resolved (stopRecordingCall (recordingState [1000, 2000])).1.chunks.sum "video/webm",
        (stopRecordingCall (recordingState [1000, 2000])).1.cleanupCount + 1) :=
  ⟨by decide, (C1_amended "video/webm" (fun _ => true) _ (by decide)).1.1⟩

/-- C3 (counterexample): on the timeout-fallback path (stop requested, the
natural-stop never observed, the 3s safety timeout finalizing a non-empty
artifact), `cleanup()` is invoked twice for the session — once inside the
resolver wrapper, once more at the end of `finishStop` — not exactly once;
the promise settles after the first invocation. -/
theorem C3_counterexample :
    (stopTimeoutEvent (fun _ => true) (stopRecordingCall (recordingState [1000])).1).cleanupCount
      = 2 ∧
    (stopTimeoutEvent (fun _ => true) (stopRecordingCall (recordingState [1000])).1).settled =
      some (.resolved 1000 "video/webm;codecs=vp8,opus", 1) := by
  constructor <;> decide

/-- C3 (amended): a `stop()` with no recorder rejects with "No active
recording" and a second `stop()` after the first completed rejects with
"Recording already stopped" without touching state (so no extra cleanup);
on every settling path at least one `cleanup()` invocation precedes the
settling of the stop promise; on the natural-stop path cleanup runs exactly
once (and the late safety timeout is a no-op), while on the
timeout-fallback and error paths `cleanup()` is invoked twice, the second
time after the promise was settled. -/
theorem C3_amended (c : List ℕ) (mime : String) (sup : String → Bool) :
    (stopRecordingCall idleState).2 = .rejectedImmediately "No active recording" ∧
    (stopRecordingCall (recordingState c)).2 = .pending ∧
    (onstopEvent mime (stopRecordingCall (recordingState c)).1).cleanupCount = 1 ∧
    (onstopEvent mime (stopRecordingCall (recordingState c)).1).settled =
      some (.resolved c.sum mime, 1) ∧
    stopTimeoutEvent sup (onstopEvent mime (stopRecordingCall (recordingState c)).1) =
      onstopEvent mime (stopRecordingCall (recordingState c)).1 ∧
    (stopRecordingCall (onstopEvent mime (stopRecordingCall (recordingState c)).1)).2 =
      .rejectedImmediately "Recording already stopped" ∧
    (stopRecordingCall (onstopEvent mime (stopRecordingCall (recordingState c)).1)).1 =
      onstopEvent mime (stopRecordingCall (recordingState c)).1 ∧
    (stopTimeoutEvent sup (stopRecordingCall (recordingState c)).1).cleanupCount = 2 ∧
    (∃ o, (stopTimeoutEvent sup (stopRecordingCall (recordingState c)).1).settled =
      some (o, 1)) ∧
    (onerrorEvent (stopRecordingCall (recordingState c)).1).cleanupCount = 2 ∧
    (onerrorEvent (stopRecordingCall (recordingState c)).1).settled =
      some (.rejected "Recording error occurred", 1) := by
  have hcall : (stopRecordingCall (recordingState c)).1 =
      { recordingState c with hasPending := true, recorderInactive := true } := by
    simp [stopRecordingCall, recordingState]
  refine ⟨by simp [stopRecordingCall, idleState],
          by simp [stopRecordingCall, recordingState], ?_, ?_, ?_, ?_, ?_, ?_, ?_, ?_, ?_⟩
  · rw [hcall]
    simp [onstopEvent, settleResolve, cleanup, recordingState]
  · rw [hcall]
    simp [onstopEvent, settleResolve, cleanup, recordingState]
  · rw [hcall]
    simp [stopTimeoutEvent, onstopEvent, settleResolve, cleanup, recordingState]
  · rw [hcall]
    simp [stopRecordingCall, onstopEvent, settleResolve, cleanup, recordingState]
  · rw [hcall]
    simp [stopRecordingCall, onstopEvent, settleResolve, cleanup, recordingState]
  · rw [hcall]
    rcases Nat.eq_zero_or_pos c.sum with h0 | hpos
    · simp [stopTimeoutEvent, finishStop, settleReject, cleanup, recordingState, h0]
    · simp [stopTimeoutEvent, finishStop, settleResolve, cleanup, recordingState, hpos]
  · rw [hcall]
    rcases Nat.eq_zero_or_pos c.sum with h0 | hpos
    · exact ⟨.rejected "No data recorded",
        by simp [stopTimeoutEvent, finishStop, settleReject, cleanup, recordingState, h0]⟩
    · exact ⟨.resolved c.sum ((getSupportedMimeType sup).getD "video/webm"),
        by simp [stopTimeoutEvent, finishStop, settleResolve, cleanup, recordingState, hpos]⟩
  · rw [hcall]
    simp [onerrorEvent, settleReject, cleanup, recordingState]
  · rw [hcall]
    simp [onerrorEvent, settleReject, cleanup, recordingState]

/-- `Math.round` never exceeds an integer bound that dominates its argument. -/
theorem jsRound_le (q : ℚ) (n : ℤ) (hq : q ≤ (n : ℚ)) : jsRound q ≤ n := by
  rw [jsRound]
  have h1 : q + 1 / 2 < ((n + 1 : ℤ) : ℚ) := by push_cast ; linarith
  have h2 : ⌊q + 1 / 2⌋ < n + 1 := Int.floor_lt.mpr h1
  omega

/-- C5: for positive effective capture dimensions, the compositing canvas
keeps the source dimensions when both are within 1920×1080, otherwise both
are scaled by the single factor `min(1920/width, 1080/height)` and rounded;
the result never upscales and never exceeds 1920×1080. -/
theorem C5_canvas (w h : ℕ) (hw : 0 < w) (hh : 0 < h) :
    (w ≤ 1920 ∧ h ≤ 1080 → canvasDims w h = ((w : ℤ), (h : ℤ))) ∧
    (1920 < w ∨ 1080 < h →
      canvasDims w h =
        (jsRound (w * min ((1920 : ℚ) / w) ((1080 : ℚ) / h)),
         jsRound (h * min ((1920 : ℚ) / w) ((1080 : ℚ) / h)))) ∧
    (canvasDims w h).1 ≤ (w : ℤ) ∧ (canvasDims w h).2 ≤ (h : ℤ) ∧
    (canvasDims w h).1 ≤ 1920 ∧ (canvasDims w h).2 ≤ 1080 := by
  have hwq : (0 : ℚ) < (w : ℚ) := by exact_mod_cast hw
  have hhq : (0 : ℚ) < (h : ℚ) := by exact_mod_cast hh
  by_cases hc : 1920 < w ∨ 1080 < h
  · have hdef : canvasDims w h =
        (jsRound (w * min ((1920 : ℚ) / w) ((1080 : ℚ) / h)),
         jsRound (h * min ((1920 : ℚ) / w) ((1080 : ℚ) / h))) := by
      simp [canvasDims, MAX_WIDTH, MAX_HEIGHT, hc]
    have hr1 : min ((1920 : ℚ) / w) ((1080 : ℚ) / h) < 1 := by
      rcases hc with hcw | hch
      · refine lt_of_le_of_lt (min_le_left _ _) ?_
        rw [div_lt_one hwq]
        exact_mod_cast hcw
      · refine lt_of_le_of_lt (min_le_right _ _) ?_
        rw [div_lt_one hhq]
        exact_mod_cast hch
    have hwr : (w : ℚ) * min ((1920 : ℚ) / w) ((1080 : ℚ) / h) ≤ 1920 := by
      calc (w : ℚ) * min ((1920 : ℚ) / w) ((1080 : ℚ) / h)
          ≤ (w : ℚ) * ((1920 : ℚ) / w) :=
            mul_le_mul_of_nonneg_left (min_le_left _ _) (le_of_lt hwq)
        _ = 1920 := by field_simp
    have hhr : (h : ℚ) * min ((1920 : ℚ) / w) ((1080 : ℚ) / h) ≤ 1080 := by
      calc (h : ℚ) * min ((1920 : ℚ) / w) ((1080 : ℚ) / h)
          ≤ (h : ℚ) * ((1080 : ℚ) / h) :=
            mul_le_mul_of_nonneg_left (min_le_right _ _) (le_of_lt hhq)
        _ = 1080 := by field_simp
    have hwup : (w : ℚ) * min ((1920 : ℚ) / w) ((1080 : ℚ) / h) ≤ (w : ℚ) := by
      calc (w : ℚ) * min ((1920 : ℚ) / w) ((1080 : ℚ) / h)
          ≤ (w : ℚ) * 1 := mul_le_mul_of_nonneg_left (le_of_lt hr1) (le_of_lt hwq)
        _ = (w : ℚ) := mul_one _
    have hhup : (h : ℚ) * min ((1920 : ℚ) / w) ((1080 : ℚ) / h) ≤ (h : ℚ) := by
      calc (h : ℚ) * min ((1920 : ℚ) / w) ((1080 : ℚ) / h)
          ≤ (h : ℚ) * 1 := mul_le_mul_of_nonneg_left (le_of_lt hr1) (le_of_lt hhq)
        _ = (h : ℚ) := mul_one _
    refine ⟨fun hboth => absurd hc (by omega), fun _ => hdef, ?_, ?_, ?_, ?_⟩
    · rw [hdef]
      exact jsRound_le _ _ hwup
    · rw [hdef]
      exact jsRound_le _ _ hhup
    · rw [hdef]
      exact jsRound_le _ 1920 (by exact_mod_cast hwr)
    · rw [hdef]
      exact jsRound_le _ 1080 (by exact_mod_cast hhr)
  · push_neg at hc
    have hdef : canvasDims w h = ((w : ℤ), (h : ℤ)) := by
      simp [canvasDims, MAX_WIDTH, MAX_HEIGHT]
      omega
    refine ⟨fun _ => hdef, fun hgt => absurd hgt (by omega), ?_, ?_, ?_, ?_⟩
    · rw [hdef]
    · rw [hdef]
    · rw [hdef]
      show (w : ℤ) ≤ 1920
      exact_mod_cast hc.1
    · rw [hdef]
      show (h : ℤ) ≤ 1080
      exact_mod_cast hc.2

/-- C5 (witness): a 4K (3840×2160) capture is downscaled within bounds. -/
theorem C5_canvas_witness :
    (canvasDims 3840 2160).1 ≤ (3840 : ℤ) ∧ (canvasDims 3840 2160).2 ≤ (2160 : ℤ) ∧
    (canvasDims 3840 2160).1 ≤ 1920 ∧ (canvasDims 3840 2160).2 ≤ 1080 :=
  ⟨(C5_canvas 3840 2160 (by decide) (by decide)).2.2.1,
   (C5_canvas 3840 2160 (by decide) (by decide)).2.2.2.1,
   (C5_canvas 3840 2160 (by decide) (by decide)).2.2.2.2.1,
   (C5_canvas 3840 2160 (by decide) (by decide)).2.2.2.2.2⟩

/-- `firstSupported` returns exactly the first list entry the predicate
accepts, and `none` when it accepts no entry. -/
theorem firstSupported_first (p : String → Bool) (l : List String) :
    (∀ m, firstSupported p l = some m →
      ∃ l1 l2, l = l1 ++ m :: l2 ∧ p m = true ∧ ∀ t ∈ l1, p t = false) ∧
    ((∀ t ∈ l, p t = false) → firstSupported p l = none) := by
  induction l with
  | nil => simp [firstSupported]
  | cons a l ih =>
    constructor
    · intro m hm
      by_cases ha : p a = true
      · rw [firstSupported, if_pos ha] at hm
        obtain rfl : a = m := by injection hm
        exact ⟨[], l, rfl, ha, by simp⟩
      · rw [firstSupported, if_neg ha] at hm
        obtain ⟨l1, l2, hl, hpm, hfirst⟩ := ih.1 m hm
        refine ⟨a :: l1, l2, by rw [hl, List.cons_append], hpm, ?_⟩
        intro t ht
        rcases List.mem_cons.mp ht with rfl | ht2
        · simpa using ha
        · exact hfirst t ht2
    · intro hall
      have ha : p a = false := hall a (by simp)
      rw [firstSupported, if_neg (by simp [ha])]
      exact ih.2 fun t ht => hall t (by simp [ht])

/-- C6: the recording mime type is the first supported entry of the fixed
four-candidate priority list (whatever the platform's support predicate),
`startRecording` fails with "No supported video MIME type found" when none
is supported, every successfully selected mime type is one of the four
candidates, and so is the fallback type used by the forced finalization. -/
theorem C6_mime (sup : String → Bool) :
    (∀ m, getSupportedMimeType sup = some m →
      sup m = true ∧
      ∃ l1 l2, mimeTypeCandidates = l1 ++ m :: l2 ∧ ∀ t ∈ l1, sup t = false) ∧
    ((∀ t ∈ mimeTypeCandidates, sup t = false) →
      selectMimeType sup = .error "No supported video MIME type found") ∧
    (∀ m, selectMimeType sup = .ok m → m ∈ mimeTypeCandidates) ∧
    (getSupportedMimeType sup).getD "video/webm" ∈ mimeTypeCandidates := by
  have hfs := firstSupported_first sup mimeTypeCandidates
  have hmem : ∀ m, getSupportedMimeType sup = some m → m ∈ mimeTypeCandidates := by
    intro m hm
    obtain ⟨l1, l2, hl, _, _⟩ := hfs.1 m hm
    rw [hl]
    simp
  refine ⟨?_, ?_, ?_, ?_⟩
  · intro m hm
    obtain ⟨l1, l2, hl, hpm, hfirst⟩ := hfs.1 m hm
    exact ⟨hpm, l1, l2, hl, hfirst⟩
  · intro hall
    rw [selectMimeType, getSupportedMimeType, hfs.2 hall]
  · intro m hm
    rw [selectMimeType] at hm
    cases hg : getSupportedMimeType sup with
    | none => rw [hg] at hm ; cases hm
    | some t =>
      rw [hg] at hm
      obtain rfl : t = m := by injection hm
      exact hmem t hg
  · cases hg : getSupportedMimeType sup with
    | none => simp [mimeTypeCandidates]
    | some t =>
      simpa using hmem t hg

/-- C6 (witness): with no codec supported, `startRecording`'s mime check
fails with the declared error; with exactly `video/mp4` supported, the
selected type is a member of the candidate list. -/
theorem C6_mime_witness :
    selectMimeType (fun _ => false) = .error "No supported video MIME type found" ∧
    "video/mp4" ∈ mimeTypeCandidates :=
  ⟨(C6_mime (fun _ => false)).2.1 (by decide),
   (C6_mime (fun t => t == "video/mp4")).2.2.1 "video/mp4" (by rfl)⟩

/-- C7: a session started with no webcam source (webcam disabled, or its
acquisition denied while nothing is held) records the raw display video
track — the single video track of the final stream — with no compositor
instantiated, plus at most one audio track (the mixed-graph output), which
is absent exactly when no audio source was available. -/
theorem C7_no_webcam (env : Env) (s : CamState) (disp : DisplayStream)
    (hd : env.display = .ok disp)
    (hwc : s.webcamStream = none)
    (hnoacq : s.webcamEnabled = false ∨ ∃ e, env.webcamAcq = .error e) :
    ∀ r s2 log, startRecording env s = (.ok r, s2, log) →
      r.videoTrack = .rawDisplay ∧
      r.compositorStarted = false ∧
      r.audioTrackCount ≤ 1 ∧
      (disp.audioTracks = 0 → (∃ e, env.mic = .error e) → r.audioTrackCount = 0) ∧
      (0 < disp.audioTracks ∨ env.mic = .ok () → r.audioTrackCount = 1) := by
  have hs1 : (webcamInitStep env s).1.webcamStream = none := by
    rw [webcamInitStep]
    by_cases hb : s.webcamEnabled = true ∧ s.webcamStream = none
    · rw [if_pos hb]
      rcases hnoacq with hfalse | ⟨e, he⟩
      · rw [hb.1] at hfalse ; cases hfalse
      · rw [he]
        simp [initWebcam, hwc]
    · rw [if_neg hb]
      exact hwc
  intro r s2 log hrun
  simp only [startRecording, hd] at hrun
  by_cases hv : disp.videoTracks = 0
  · rw [if_pos hv] at hrun
    exact absurd (congrArg (fun p => p.1) hrun) (by simp)
  rw [if_neg hv] at hrun
  cases hg : getSupportedMimeType env.isTypeSupported with
  | none =>
    rw [hg] at hrun
    exact absurd (congrArg (fun p => p.1) hrun) (by simp)
  | some m =>
    rw [hg] at hrun
    simp only [Prod.mk.injEq] at hrun
    obtain ⟨hA, _, _⟩ := hrun
    injection hA with hA
    subst hA
    refine ⟨by simp [hs1], by simp [hs1], ?_, ?_, ?_⟩
    · show mixedAudioTracks disp (micAcquire env).1 ≤ 1
      rw [mixedAudioTracks]
      split <;> simp
    · rintro h0 ⟨e, he⟩
      show mixedAudioTracks disp (micAcquire env).1 = 0
      simp [mixedAudioTracks, h0, micAcquire, he]
    · rintro (hpos | hok)
      · show mixedAudioTracks disp (micAcquire env).1 = 1
        simp [mixedAudioTracks, hpos]
      · show mixedAudioTracks disp (micAcquire env).1 = 1
        simp [mixedAudioTracks, micAcquire, hok]

/-- C7 (witness): applied to a granted display capture with one video and no
audio track, denied webcam, denied microphone, all codecs supported. -/
theorem C7_no_webcam_witness :
    sampleResult.videoTrack = .rawDisplay ∧ sampleResult.compositorStarted = false ∧
    sampleResult.audioTrackCount ≤ 1 := by
  have hrun : startRecording sampleEnv sampleCam = (.ok sampleResult, sampleCamPost, sampleLog) :=
    rfl
  have h := C7_no_webcam sampleEnv sampleCam ⟨1, 0⟩ rfl rfl (Or.inr ⟨"absent", rfl⟩)
    sampleResult sampleCamPost sampleLog hrun
  exact ⟨h.1, h.2.1, h.2.2.1⟩

/-- C8: with display capture granted (carrying a video track) and a
supported mime type, `startRecording` succeeds no matter how the microphone
and webcam acquisitions turn out; a microphone failure is only logged and
the session proceeds with the audio mix reflecting system audio alone; a
webcam failure is only logged, disables the webcam, and the session records
the raw display track. -/
theorem C8_degraded (env : Env) (s : CamState) (disp : DisplayStream) (m : String)
    (hd : env.display = .ok disp) (hv : 0 < disp.videoTracks)
    (hm : getSupportedMimeType env.isTypeSupported = some m) :
    (∃ r, (startRecording env s).1 = .ok r ∧ r.recording = true) ∧
    (∀ e, env.mic = .error e →
      ("Could not access microphone: " ++ e) ∈ (startRecording env s).2.2 ∧
      ∀ r, (startRecording env s).1 = .ok r →
        r.audioTrackCount = if 0 < disp.audioTracks then 1 else 0) ∧
    (∀ e, env.webcamAcq = .error e → s.webcamEnabled = true → s.webcamStream = none →
      ("Could not access webcam: " ++ e) ∈ (startRecording env s).2.2 ∧
      (startRecording env s).2.1.webcamEnabled = false ∧
      ∀ r, (startRecording env s).1 = .ok r → r.videoTrack = .rawDisplay) := by
  have hrun : startRecording env s =
      (.ok { videoTrack := if (webcamInitStep env s).1.webcamStream.isSome
                           then .canvasDerived else .rawDisplay
             audioTrackCount := mixedAudioTracks disp (micAcquire env).1
             compositorStarted := (webcamInitStep env s).1.webcamStream.isSome
             mimeType := m
             recording := true },
       (webcamInitStep env s).1,
       (micAcquire env).2 ++ (webcamInitStep env s).2) := by
    simp [startRecording, hd, hm, Nat.pos_iff_ne_zero.mp hv]
  refine ⟨⟨_, by rw [hrun], rfl⟩, ?_, ?_⟩
  · intro e he
    constructor
    · rw [hrun]
      simp [micAcquire, he]
    · intro r hr
      rw [hrun] at hr
      simp only [Except.ok.injEq] at hr
      subst hr
      by_cases ha : 0 < disp.audioTracks <;>
        simp [mixedAudioTracks, micAcquire, he, ha]
  · intro e he hen hwn
    have hw : webcamInitStep env s =
        ({ s with webcamEnabled := false }, ["Could not access webcam: " ++ e]) := by
      simp [webcamInitStep, hen, hwn, initWebcam, he]
    refine ⟨?_, ?_, ?_⟩
    · rw [hrun]
      simp [hw]
    · rw [hrun]
      simp [hw]
    · intro r hr
      rw [hrun] at hr
      simp only [Except.ok.injEq] at hr
      subst hr
      simp [hw, hwn]

/-- C8 (witness): both degraded acquisitions failing at once still lets the
session start, with both failures present only in the warn log. -/
theorem C8_degraded_witness :
    (∃ r, (startRecording sampleEnv sampleCam).1 = .ok r ∧ r.recording = true) ∧
    "Could not access microphone: denied" ∈ (startRecording sampleEnv sampleCam).2.2 ∧
    "Could not access webcam: absent" ∈ (startRecording sampleEnv sampleCam).2.2 ∧
    (startRecording sampleEnv sampleCam).2.1.webcamEnabled = false :=
  ⟨(C8_degraded sampleEnv sampleCam ⟨1, 0⟩ "video/webm;codecs=vp8,opus" rfl
      (by decide) rfl).1,
   ((C8_degraded sampleEnv sampleCam ⟨1, 0⟩ "video/webm;codecs=vp8,opus" rfl
      (by decide) rfl).2.1 "denied" rfl).1,
   ((C8_degraded sampleEnv sampleCam ⟨1, 0⟩ "video/webm;codecs=vp8,opus" rfl
      (by decide) rfl).2.2 "absent" rfl rfl rfl).1,
   ((C8_degraded sampleEnv sampleCam ⟨1, 0⟩ "video/webm;codecs=vp8,opus" rfl
      (by decide) rfl).2.2 "absent" rfl rfl rfl).2.1⟩

/-- C10: `toggleWebcam` is insensitive to the recording state — it commutes
with any change of `isRecording`, never modifies `isRecording`, and branches
solely on whether a webcam stream is held (clearing the stream and disabling
when one is); once the stream is stopped and cleared, every composited frame
omits the overlay and draws only the background, since the per-frame guard
requires a live webcam stream. -/
theorem C10_toggle (acq : Except String Unit) (s : CamState) (b : Bool) (v : Option CamVideo) :
    (toggleWebcam acq { s with isRecording := b }).1 =
      { (toggleWebcam acq s).1 with isRecording := b } ∧
    (toggleWebcam acq { s with isRecording := b }).2 = (toggleWebcam acq s).2 ∧
    (toggleWebcam acq s).1.isRecording = s.isRecording ∧
    (s.webcamStream.isSome = true →
      (toggleWebcam acq s).1.webcamStream = none ∧
      (toggleWebcam acq s).1.webcamEnabled = false) ∧
    (stopWebcam s).webcamStream = none ∧
    (drawFrame v none).overlay = false ∧
    (drawFrame v none).background = true := by
  cases hws : s.webcamStream with
  | some u =>
    cases acq <;> cases v <;>
      simp [toggleWebcam, stopWebcam, initWebcam, drawFrame, hws]
  | none =>
    cases acq <;> cases v <;>
      simp [toggleWebcam, stopWebcam, initWebcam, drawFrame, hws]

/-- C10 (witness): toggling while a recording is live and a stream is held
clears the stream and disables the webcam. -/
theorem C10_toggle_witness :
    (toggleWebcam (.ok ())
      { webcamEnabled := true, webcamStream := some (), isRecording := true }).1.webcamStream
      = none ∧
    (toggleWebcam (.ok ())
      { webcamEnabled := true, webcamStream := some (), isRecording := true }).1.webcamEnabled
      = false :=
  (C10_toggle (.ok ()) { webcamEnabled := true, webcamStream := some (), isRecording := true }
    true none).2.2.2.1 rfl
